import Mathlib

/-!
Verification development for the rust-qmtt-logserver repository.

The development shallowly embeds the core of `src/rscls/async_logger.rs`
(filename generation, filename-timestamp parsing, the retention sweep, and
the rotation worker loop) and of `src/rscls/mqtt_client.rs` (the payload
normalizer inside `MqttClient::handle_event`).

Modelling conventions:
* Machine integers are `Nat`/`Int`; Rust `usize` arithmetic in the worker
  never overflows for realistic sizes and is modelled as `Nat`.
* `f64` values flowing through the normalizer are modelled as exact
  rationals (`Rat`); every concrete value used in a theorem below
  (integers of magnitude below 2^53, and the literal `1e11`) is exactly
  representable as an `f64`, so the modelled comparisons and the single
  division by `1000.0` agree with IEEE semantics at those points.
* File-system and clock effects of one worker-loop iteration are supplied
  as an explicit environment record (`StepEnv`) of operation outcomes.
* `chrono`'s `DateTime<Local>` values are identified with their absolute
  instant, an `Int` count of non-leap seconds since the Unix epoch;
  `with_timezone(&Local)` preserves the instant and is the identity here.
  The `Local` timezone is modelled as a fixed UTC offset `off` in seconds,
  passed explicitly where formatting happens.
-/

set_option maxRecDepth 8192

/-- Left-pad the decimal representation of `n` with zeros to width `w`;
this is Rust's `format!` with `{:02}`-style zero padding (`w = 2`) and the
zero-padded year/month/day/... fields of chrono's `%Y`, `%m`, ... -/
def zeroPad (w : Nat) (n : Nat) : String :=
  let s := toString n
  String.mk (List.replicate (w - s.length) '0') ++ s

/-- Days since 1970-01-01 of a proleptic-Gregorian civil date
(Howard Hinnant's `days_from_civil` algorithm, used here as the arithmetic
underlying chrono's calendar). -/
def daysFromCivil (y : Int) (m d : Nat) : Int :=
  let yAdj : Int := if m ≤ 2 then y - 1 else y
  let era : Int := yAdj.fdiv 400
  let yoe : Int := yAdj - era * 400
  let mp : Int := ((m : Int) + 9) % 12
  let doy : Int := (153 * mp + 2).fdiv 5 + (d : Int) - 1
  let doe : Int := yoe * 365 + yoe.fdiv 4 - yoe.fdiv 100 + doy
  era * 146097 + doe - 719468

/-- Inverse of `daysFromCivil` (Hinnant's `civil_from_days`): the civil
date `(year, month, day)` of a day count since 1970-01-01. -/
def civilFromDays (z0 : Int) : Int × Nat × Nat :=
  let z := z0 + 719468
  let era := z.fdiv 146097
  let doe := (z - era * 146097).toNat
  let yoe := (doe - doe / 1460 + doe / 36524 - doe / 146096) / 365
  let doy := doe - (365 * yoe + yoe / 4 - yoe / 100)
  let mp := (5 * doy + 2) / 153
  let d := doy - (153 * mp + 2) / 5 + 1
  let m := if mp < 10 then mp + 3 else mp - 9
  (era * 400 + (yoe : Int) + (if m ≤ 2 then 1 else 0), m, d)

/-- Smallest instant representable by chrono's `NaiveDateTime`
(year -262144, the lower end of chrono's internal year range). -/
def chronoMinInstant : Int := daysFromCivil (-262144) 1 1 * 86400

/-- Largest instant representable by chrono's `NaiveDateTime`
(last second of year 262143, the upper end of chrono's year range). -/
def chronoMaxInstant : Int := daysFromCivil 262143 12 31 * 86400 + 86399

/-- Fields accumulated by chrono's `Parsed` structure while scanning an
input against a format string; only the fields exercised by the format
`%Y-%m-%d %H:%M:%S` (plus the UTC offset, which that format never sets)
are represented. -/
structure ChronoParsed where
  year : Option Int
  month : Option Nat
  day : Option Nat
  hour : Option Nat
  minute : Option Nat
  second : Option Nat
  tzOffset : Option Int
deriving DecidableEq, Repr

/-- The empty `Parsed` accumulator chrono starts from. -/
def emptyParsed : ChronoParsed := ⟨none, none, none, none, none, none, none⟩

/-- One strftime format item, as produced by chrono's `StrftimeItems` for
the format strings appearing in the source. -/
inductive ChronoItem where
  | numYear
  | numMonth
  | numDay
  | numHour
  | numMinute
  | numSecond
  | lit (c : Char)
  | offsetZ
deriving DecidableEq, Repr

/-- Numeric value of a list of decimal digit characters. -/
def digitsVal (l : List Char) : Nat :=
  l.foldl (fun a c => a * 10 + (c.toNat - 48)) 0

/-- Greedily scan an unsigned decimal number (at least one digit). -/
def scanNum (l : List Char) : Option (Nat × List Char) :=
  let ds := l.takeWhile Char.isDigit
  if ds.isEmpty then none else some (digitsVal ds, l.dropWhile Char.isDigit)

/-- Scan a decimal number with an optional leading sign (chrono's year
field is signed). -/
def scanSignedNum (l : List Char) : Option (Int × List Char) :=
  match l with
  | '-' :: rest => (scanNum rest).map (fun p => (-(p.1 : Int), p.2))
  | '+' :: rest => (scanNum rest).map (fun p => ((p.1 : Int), p.2))
  | _ => (scanNum l).map (fun p => ((p.1 : Int), p.2))

/-- Apply one format item to the input, extending the `Parsed`
accumulator; `none` is chrono's scan error. -/
def applyChronoItem (it : ChronoItem) (p : ChronoParsed) (l : List Char) :
    Option (ChronoParsed × List Char) :=
  match it with
  | .numYear => (scanSignedNum l).map (fun r => ({ p with year := some r.1 }, r.2))
  | .numMonth => (scanNum l).map (fun r => ({ p with month := some r.1 }, r.2))
  | .numDay => (scanNum l).map (fun r => ({ p with day := some r.1 }, r.2))
  | .numHour => (scanNum l).map (fun r => ({ p with hour := some r.1 }, r.2))
  | .numMinute => (scanNum l).map (fun r => ({ p with minute := some r.1 }, r.2))
  | .numSecond => (scanNum l).map (fun r => ({ p with second := some r.1 }, r.2))
  | .lit c =>
    match l with
    | c2 :: rest => if c2 = c then some (p, rest) else none
    | [] => none
  | .offsetZ =>
    match l with
    | s :: h1 :: h2 :: m1 :: m2 :: rest =>
      if (s = '+' ∨ s = '-') ∧ h1.isDigit ∧ h2.isDigit ∧ m1.isDigit ∧ m2.isDigit then
        let v : Int := (digitsVal [h1, h2] * 3600 + digitsVal [m1, m2] * 60 : Nat)
        some ({ p with tzOffset := some (if s = '-' then -v else v) }, rest)
      else none
    | _ => none

/-- Run a list of format items over the input, threading the accumulator. -/
def runChronoItems : List ChronoItem → ChronoParsed × List Char →
    Option (ChronoParsed × List Char)
  | [], st => some st
  | i :: is, (p, l) => (applyChronoItem i p l).bind (runChronoItems is)

/-- The items of the format string `%Y-%m-%d %H:%M:%S`. -/
def fmtYmdHms : List ChronoItem :=
  [.numYear, .lit '-', .numMonth, .lit '-', .numDay, .lit ' ',
   .numHour, .lit ':', .numMinute, .lit ':', .numSecond]

/-- Chrono's `Parsed::to_datetime`: producing a `DateTime<FixedOffset>`
needs every date/time field and, crucially, a parsed UTC offset; a missing
offset is the `NotEnough` error (`none`). The result is the absolute
instant in seconds. -/
def chronoParsedToInstant (p : ChronoParsed) : Option Int :=
  match p.tzOffset with
  | none => none
  | some off =>
    match p.year, p.month, p.day, p.hour, p.minute, p.second with
    | some y, some mo, some d, some h, some mi, some s =>
      if 1 ≤ mo ∧ mo ≤ 12 ∧ 1 ≤ d ∧ d ≤ 31 ∧ h ≤ 23 ∧ mi ≤ 59 ∧ s ≤ 59 then
        some (daysFromCivil y mo d * 86400 + ((h * 3600 + mi * 60 + s : Nat) : Int) - off)
      else none
    | _, _, _, _, _, _ => none

/-- Chrono's `DateTime::parse_from_str s fmt`: scan the whole input
against the format items (leftover input is the `TooLong` error) and then
assemble a `DateTime<FixedOffset>`. -/
def chronoDateTimeParseFromStr (s : String) (fmt : List ChronoItem) : Option Int :=
  match runChronoItems fmt (emptyParsed, s.toList) with
  | some (p, rest) => if rest.isEmpty then chronoParsedToInstant p else none
  | none => none

/-- Rust's `str::replace('_', " ")` specialized to a single-character
pattern: map every underscore to a space. -/
def replaceUnderscores (s : String) : String :=
  String.mk (s.toList.map (fun c => if c = '_' then ' ' else c))

/-- Rust's `str::ends_with`, as a structural suffix test on characters. -/
def strEndsWith (s suffix : String) : Bool :=
  suffix.toList.isSuffixOf s.toList

/-- Embedding of `parse_log_filename` (async_logger.rs lines 22-35): take
the part of the filename before the first underscore, replace underscores
by spaces, and parse it with `DateTime::parse_from_str` against
`%Y-%m-%d %H:%M:%S`; `with_timezone(&Local)` preserves the instant. -/
def parse_log_filename (filename : String) : Option Int :=
  if filename.toList.contains '_' then
    let timestampPart := String.mk (filename.toList.takeWhile (fun c => c ≠ '_'))
    let ts := replaceUnderscores timestampPart
    chronoDateTimeParseFromStr ts fmtYmdHms
  else
    none

/-- Local-time fields used when the worker formats `Local::now()` with
`%Y-%m-%d_%H-%M-%S` for a new filename. -/
structure LocalTimeFields where
  year : Nat
  month : Nat
  day : Nat
  hour : Nat
  minute : Nat
  second : Nat
deriving DecidableEq, Repr

/-- The worker's filename timestamp `Local::now().format("%Y-%m-%d_%H-%M-%S")`. -/
def formatFileTimestamp (t : LocalTimeFields) : String :=
  zeroPad 4 t.year ++ "-" ++ zeroPad 2 t.month ++ "-" ++ zeroPad 2 t.day ++ "_" ++
  zeroPad 2 t.hour ++ "-" ++ zeroPad 2 t.minute ++ "-" ++ zeroPad 2 t.second

/-- Embedding of the filename construction in `AsyncLogger::with_config`
(async_logger.rs lines 152-153 and 187-188):
`format!("{}-{}-{:02}.jsonl", timestamp, safe_topic_name, file_index)`. -/
def logFileName (t : LocalTimeFields) (safeTopic : String) (idx : Nat) : String :=
  formatFileTimestamp t ++ "-" ++ safeTopic ++ "-" ++ zeroPad 2 idx ++ ".jsonl"

/-- One directory entry seen by the retention sweep. -/
structure DirEntry where
  name : String
  isFile : Bool
deriving DecidableEq, Repr

/-- Embedding of `cleanup_expired_logs` (async_logger.rs lines 38-91),
returning the names the sweep removes: nothing when
`retention_hours <= 0`; otherwise every regular file whose name ends in
`.jsonl`, whose name parses to a timestamp, and whose timestamp is older
than `now - Duration::hours(retention_hours)`. -/
def cleanup_expired_logs (retentionHours : Int) (nowInstant : Int)
    (entries : List DirEntry) : List String :=
  if retentionHours ≤ 0 then []
  else
    (entries.filter (fun e =>
      e.isFile &&
      strEndsWith e.name (".jsonl") &&
      (match parse_log_filename e.name with
       | some t => decide (t < nowInstant - retentionHours * 3600)
       | none => false))).map (fun e => e.name)

/-- Model of a parsed `serde_json::Value`; numbers are carried as exact
rationals (see the module comment for how this relates to `f64`). -/
inductive JsonValue where
  | null
  | bool (b : Bool)
  | num (q : Rat)
  | str (s : String)
  | arr (xs : List JsonValue)
  | obj (fields : List (String × JsonValue))

/-- Model of `serde_json::Value::get(key)`: key lookup on objects,
`None` on every other variant. -/
def JsonValue.get (v : JsonValue) (key : String) : Option JsonValue :=
  match v with
  | .obj fields => (fields.find? (fun p => p.1 == key)).map (fun p => p.2)
  | _ => none

/-- Model of `serde_json::Value::as_f64`: any JSON number converts. -/
def JsonValue.asF64 (v : JsonValue) : Option Rat :=
  match v with
  | .num q => some q
  | _ => none

/-- Model of serde_json's string escaping (only the escapes that could
appear in this development's inputs). -/
def escapeJsonChar (c : Char) : String :=
  if c = '"' then "\\\"" else if c = '\\' then "\\\\" else String.singleton c

/-- Escape a whole string for JSON output. -/
def escapeJsonString (s : String) : String :=
  String.join (s.toList.map escapeJsonChar)

/-- Model of serde_json's number printing: integers print exactly; the
non-integer case is a placeholder (never evaluated by any theorem below,
since no claim inspects a re-serialized numeric payload). -/
def ratToJsonNumber (q : Rat) : String :=
  if q.den = 1 then toString q.num else toString q.num ++ "/" ++ toString q.den

mutual

/-- Model of `serde_json::Value::to_string` (compact form, as used for the
`raw` part of the produced log line). -/
def jsonToString : JsonValue → String
  | .null => "null"
  | .bool b => cond b ("true") ("false")
  | .num q => ratToJsonNumber q
  | .str s => "\"" ++ escapeJsonString s ++ "\""
  | .arr xs => "[" ++ jsonSeqToString xs ++ "]"
  | .obj fs => "\x7b" ++ jsonObjToString fs ++ "\x7d"

/-- Comma-separated serialization of an array's elements. -/
def jsonSeqToString : List JsonValue → String
  | [] => ""
  | [x] => jsonToString x
  | x :: y :: rest => jsonToString x ++ "," ++ jsonSeqToString (y :: rest)

/-- Comma-separated serialization of an object's fields. -/
def jsonObjToString : List (String × JsonValue) → String
  | [] => ""
  | [(k, v)] => "\"" ++ escapeJsonString k ++ "\":" ++ jsonToString v
  | (k, v) :: y :: rest =>
    "\"" ++ escapeJsonString k ++ "\":" ++ jsonToString v ++ "," ++ jsonObjToString (y :: rest)

end

/-- Embedding of the timestamp interpretation in `MqttClient::handle_event`
(mqtt_client.rs line 53): `let secs = if ts > 1e11 { ts / 1000.0 } else { ts }`. -/
def mqttInterpretTimestamp (ts : Rat) : Rat :=
  if (100000000000 : Rat) < ts then ts / 1000 else ts

/-- Rust's `as i64` cast on an `f64` value (mqtt_client.rs line 54,
`secs as i64`): truncate toward zero, saturating at the `i64` bounds. -/
def castF64ToI64 (q : Rat) : Int :=
  let t := Int.tdiv q.num (q.den : Int)
  if t > 9223372036854775807 then 9223372036854775807
  else if t < -9223372036854775808 then -9223372036854775808
  else t

/-- Chrono's `%Y-%m-%d %H:%M:%S` formatting of the instant `secs`, shown
in a timezone that is `off` seconds east of UTC (the model of `Local`). -/
def formatLocalDateTime (off : Int) (secs : Int) : String :=
  let t := secs + off
  let days := t.fdiv 86400
  let sod := (t - days * 86400).toNat
  let ymd := civilFromDays days
  (if ymd.1 < 0 then "-" ++ zeroPad 4 (-ymd.1).toNat else zeroPad 4 ymd.1.toNat) ++ "-" ++
  zeroPad 2 ymd.2.1 ++ "-" ++ zeroPad 2 ymd.2.2 ++ " " ++
  zeroPad 2 (sod / 3600) ++ ":" ++ zeroPad 2 (sod % 3600 / 60) ++ ":" ++ zeroPad 2 (sod % 60)

/-- Model of `Local.timestamp_opt(secs, 0).single().map(format)`: a unix
timestamp maps to exactly one local datetime, so `single` is `Some`
precisely when the instant is inside chrono's representable range. -/
def localTimestampSingleFormatted (off : Int) (secs : Int) : Option String :=
  if chronoMinInstant ≤ secs ∧ secs ≤ chronoMaxInstant then
    some (formatLocalDateTime off secs)
  else none

/-- Embedding of the `ext` part built in `MqttClient::handle_event`
(mqtt_client.rs lines 51-58): look up a numeric `timestamp` field,
interpret it, format it as local time with `unwrap_or_default`, and wrap
it as `{"timestamp":"..."}`; without the field, `ext` is `{}`. -/
def mqttExtPart (off : Int) (value : JsonValue) : String :=
  match (value.get ("timestamp")).bind JsonValue.asF64 with
  | some ts =>
    let secs := castF64ToI64 (mqttInterpretTimestamp ts)
    let tsStr := (localTimestampSingleFormatted off secs).getD ("")
    "\x7b\"timestamp\":\"" ++ tsStr ++ "\"\x7d"
  | none => "\x7b\x7d"

/-- Embedding of the log-line assembly in `MqttClient::handle_event`
(mqtt_client.rs lines 47-73), parametrized by the outcome of
`serde_json::from_str` on the payload: on success the `ext`/`raw` pair is
`(mqttExtPart, value.to_string())`; on failure it is
`("{}", {"message":"json解析失败"})`; either way the line is
`{"ext":<ext>,"raw":<raw>}`. -/
def mqttNormalize (off : Int) (parsed : Except Unit JsonValue) : String :=
  let pr := match parsed with
    | .ok value => (mqttExtPart off value, jsonToString value)
    | .error _ => ("\x7b\x7d", "\x7b\"message\":\"json解析失败\"\x7d")
  "\x7b\"ext\":" ++ pr.1 ++ ",\"raw\":" ++ pr.2 ++ "\x7d"

/-- Modelled from the spec wording of claim C5 (the comparison against the
source definition `mqttExtPart`): treat the numeric `timestamp` as seconds
when its magnitude is below 1e11, otherwise as milliseconds divided by
1000, and emit the formatted local time in `ext`. -/
def specExtPartMagnitude (off : Int) (value : JsonValue) : String :=
  match (value.get ("timestamp")).bind JsonValue.asF64 with
  | some ts =>
    let secsQ := if abs ts < (100000000000 : Rat) then ts else ts / 1000
    let secs := castF64ToI64 secsQ
    let tsStr := (localTimestampSingleFormatted off secs).getD ("")
    "\x7b\"timestamp\":\"" ++ tsStr ++ "\"\x7d"
  | none => "\x7b\x7d"

/-- Modelled from the amended wording of claim C5: treat the numeric
`timestamp` as seconds when `ts ≤ 1e11` (signed comparison) and otherwise
as milliseconds divided by 1000 (truncated toward zero on the cast), and
emit the formatted local time in `ext` (empty string when the instant is
not representable); without the field, `ext` is `{}`. -/
def specExtPartSigned (off : Int) (value : JsonValue) : String :=
  match (value.get ("timestamp")).bind JsonValue.asF64 with
  | some ts =>
    let secsQ := if (100000000000 : Rat) < ts then ts / 1000 else ts
    let secs := castF64ToI64 secsQ
    let tsStr := (localTimestampSingleFormatted off secs).getD ("")
    "\x7b\"timestamp\":\"" ++ tsStr ++ "\"\x7d"
  | none => "\x7b\x7d"

/-- Rotation policy of one worker: the `max_file_size` captured by the
spawned task in `AsyncLogger::with_config`. -/
structure RotationConfig where
  maxFileSize : Nat
deriving DecidableEq, Repr

/-- The worker's `LogFile` struct (writer handle elided): bytes accounted
to the open file and the index it was opened with. -/
structure OpenLogFileSt where
  currentSize : Nat
  fileIndex : Nat
deriving DecidableEq, Repr

/-- The worker loop's mutable state: `current_file` and the loop-local
`file_index` variable (async_logger.rs lines 109-110). -/
structure WorkerState where
  currentFile : Option OpenLogFileSt
  fileIndex : Nat
deriving DecidableEq, Repr

/-- Outcomes of the I/O operations and the idle-clock reading that one
worker-loop iteration can perform, supplied as an oracle: `create_dir_all`,
`last_write_time.elapsed() > timeout`, the lazy `OpenOptions::open` and
`metadata` (with the pre-existing size `metadata.len()`), the rotation
`OpenOptions::open`, and the two `write_all` calls. Flush failures are
only reported by the code and never change control flow, so they are not
represented. -/
structure StepEnv where
  createDirOk : Bool
  idleElapsed : Bool
  openOk : Bool
  metadataOk : Bool
  existingSize : Nat
  rotateOpenOk : Bool
  writeOk : Bool
  writeNewlineOk : Bool
deriving DecidableEq, Repr

/-- How one worker-loop iteration ends: `panicked` is an `expect` firing;
the three `dropped` outcomes are the `eprintln` + `continue` paths, after
which the line is gone but the worker keeps running; `wrote` means the
line and its newline were written and flushed. -/
inductive StepOutcome where
  | panicked
  | droppedDirFail
  | droppedWriteFail
  | droppedNewlineFail
  | wrote
deriving DecidableEq, Repr

/-- Observable events of one iteration: the final outcome, the byte count
of a file closed by idle rotation, the index a lazily opened file was
created with, a size rotation's `(closed file's final byte count, new
index)`, and the index of the file that received the line. -/
structure StepTrace where
  outcome : StepOutcome
  idleClosedSize : Option Nat
  openedIndex : Option Nat
  sizeRotation : Option (Nat × Nat)
  wroteTo : Option Nat
deriving DecidableEq, Repr

/-- Final phase of an iteration (async_logger.rs lines 203-220): the two
`write_all` calls (each failure drops the line via `continue`, skipping
the size/time bookkeeping), then the flush and the
`current_size += line_size` update. -/
def finishWrite (st : WorkerState) (f : OpenLogFileSt) (lineSize : Nat) (env : StepEnv)
    (idleClosed : Option Nat) (openedIdx : Option Nat) (rot : Option (Nat × Nat)) :
    WorkerState × StepTrace :=
  if env.writeOk = false then
    (st, ⟨.droppedWriteFail, idleClosed, openedIdx, rot, none⟩)
  else if env.writeNewlineOk = false then
    (st, ⟨.droppedNewlineFail, idleClosed, openedIdx, rot, none⟩)
  else
    ({ st with currentFile := some ⟨f.currentSize + lineSize, f.fileIndex⟩ },
     ⟨.wrote, idleClosed, openedIdx, rot, some f.fileIndex⟩)

/-- Size-rotation phase of an iteration (async_logger.rs lines 174-201):
with `f` the open file, rotate when `current_size + line_size >=
max_file_size` — flush, advance `file_index` to `(file_index + 1) % 100`,
open a new file (`expect` panics on failure) and reset `current_size` to
0 — then fall through to the write phase. -/
def writePhase (cfg : RotationConfig) (st : WorkerState) (f : OpenLogFileSt) (lineSize : Nat)
    (env : StepEnv) (idleClosed : Option Nat) (openedIdx : Option Nat) :
    WorkerState × StepTrace :=
  if cfg.maxFileSize ≤ f.currentSize + lineSize then
    if env.rotateOpenOk then
      let newIdx := (st.fileIndex + 1) % 100
      finishWrite ⟨some ⟨0, newIdx⟩, newIdx⟩ ⟨0, newIdx⟩ lineSize env idleClosed openedIdx
        (some (f.currentSize, newIdx))
    else
      (⟨some f, st.fileIndex⟩, ⟨.panicked, idleClosed, openedIdx, none, none⟩)
  else
    finishWrite ⟨some f, st.fileIndex⟩ f lineSize env idleClosed openedIdx none

/-- Lazy-open phase of an iteration (async_logger.rs lines 150-172): when
no file is open, open one at the current `file_index`, seed `current_size`
from `metadata.len()` (`expect` panics when the open or the metadata call
fails), then fall through to the size-check and write phases. -/
def openAndWrite (cfg : RotationConfig) (st : WorkerState) (line : String) (env : StepEnv)
    (idleClosed : Option Nat) : WorkerState × StepTrace :=
  if env.openOk && env.metadataOk then
    writePhase cfg ⟨some ⟨env.existingSize, st.fileIndex⟩, st.fileIndex⟩
      ⟨env.existingSize, st.fileIndex⟩ (line.utf8ByteSize + 1) env idleClosed
      (some st.fileIndex)
  else
    (st, ⟨.panicked, idleClosed, none, none, none⟩)

/-- One full iteration of the worker loop in `AsyncLogger::with_config`
(async_logger.rs lines 127-220) for a dequeued `line`: ensure the
directory exists (failure drops the line and continues); when a file is
open and the idle timeout elapsed, flush and close it and reset
`file_index` to 0, then lazily reopen; when a file is open and the
timeout has not elapsed, go straight to the size-check and write phases
with `line_size = line.len() + 1`; when no file is open, lazily open one. -/
def workerStep (cfg : RotationConfig) (st : WorkerState) (line : String) (env : StepEnv) :
    WorkerState × StepTrace :=
  if env.createDirOk = false then
    (st, ⟨.droppedDirFail, none, none, none, none⟩)
  else
    match st.currentFile, env.idleElapsed with
    | some f, true => openAndWrite cfg ⟨none, 0⟩ line env (some f.currentSize)
    | some f, false => writePhase cfg st f (line.utf8ByteSize + 1) env none none
    | none, _ => openAndWrite cfg st line env none

/-- States of the worker loop reachable from its start state
(`current_file = None`, `file_index = 0`) by any sequence of dequeued
lines and I/O outcomes. -/
inductive ReachableW (cfg : RotationConfig) : WorkerState → Prop where
  | init : ReachableW cfg ⟨none, 0⟩
  | step (st : WorkerState) (line : String) (env : StepEnv) :
      ReachableW cfg st → ReachableW cfg (workerStep cfg st line env).1

/-- A `StepEnv` in which every I/O operation succeeds and the idle
timeout has not elapsed. -/
def envAllOk : StepEnv :=
  ⟨true, false, true, true, 0, true, true, true⟩

/-- Every format item other than the offset item leaves the parsed UTC
offset untouched. -/
theorem applyChronoItem_preserves_tzOffset (it : ChronoItem) (p : ChronoParsed)
    (l : List Char) (p2 : ChronoParsed) (l2 : List Char)
    (hit : it ≠ ChronoItem.offsetZ)
    (h : applyChronoItem it p l = some (p2, l2)) : p2.tzOffset = p.tzOffset := by
  cases it
  case lit c =>
    cases l with
    | nil => exact absurd h (by simp [applyChronoItem])
    | cons c2 rest =>
      simp only [applyChronoItem] at h
      split at h
      · injection h with heq
        injection heq with h1 h2
        subst h1
        rfl
      · exact absurd h (by simp)
  case offsetZ => exact absurd rfl hit
  all_goals
    simp only [applyChronoItem, Option.map_eq_some'] at h
    obtain ⟨r, hr, heq⟩ := h
    injection heq with h1 h2
    subst h1
    rfl

/-- Running a list of offset-free format items leaves the parsed UTC
offset untouched. -/
theorem runChronoItems_preserves_tzOffset (items : List ChronoItem)
    (hni : ∀ it ∈ items, it ≠ ChronoItem.offsetZ) :
    ∀ (p : ChronoParsed) (l : List Char) (p2 : ChronoParsed) (l2 : List Char),
    runChronoItems items (p, l) = some (p2, l2) → p2.tzOffset = p.tzOffset := by
  induction items with
  | nil =>
    intro p l p2 l2 h
    simp only [runChronoItems, Option.some.injEq, Prod.mk.injEq] at h
    rw [← h.1]
  | cons i is ih =>
    intro p l p2 l2 h
    simp only [runChronoItems, Option.bind_eq_some] at h
    obtain ⟨⟨pm, lm⟩, h1, h2⟩ := h
    have e2 := ih (fun it hm => hni it (List.mem_cons_of_mem i hm)) pm lm p2 l2 h2
    have e1 := applyChronoItem_preserves_tzOffset i p l pm lm
      (hni i (List.mem_cons_self i is)) h1
    rw [e2, e1]

/-- The format `%Y-%m-%d %H:%M:%S` contains no offset item, so chrono's
`DateTime::parse_from_str` (which insists on an offset) rejects every
input string under it. -/
theorem chronoDateTimeParseFromStr_fmtYmdHms_eq_none (s : String) :
    chronoDateTimeParseFromStr s fmtYmdHms = none := by
  unfold chronoDateTimeParseFromStr
  cases hr : runChronoItems fmtYmdHms (emptyParsed, s.toList) with
  | none => rfl
  | some pr =>
    obtain ⟨p, rest⟩ := pr
    have hoff : p.tzOffset = emptyParsed.tzOffset :=
      runChronoItems_preserves_tzOffset fmtYmdHms (by decide) emptyParsed s.toList p rest hr
    have hnone : chronoParsedToInstant p = none := by
      unfold chronoParsedToInstant
      rw [hoff]
      rfl
    simp [hnone]

/-- `parse_log_filename` rejects every filename: either there is no
underscore at all, or the date-only fragment before the first underscore
is handed to a parse that can never succeed. -/
theorem parse_log_filename_eq_none (s : String) : parse_log_filename s = none := by
  unfold parse_log_filename
  split
  · exact chronoDateTimeParseFromStr_fmtYmdHms_eq_none _
  · rfl

/-- The write phase never panics (write failures are `continue`-and-report). -/
theorem finishWrite_outcome_ne_panicked (st : WorkerState) (f : OpenLogFileSt) (ls : Nat)
    (env : StepEnv) (ic : Option Nat) (oi : Option Nat) (rot : Option (Nat × Nat)) :
    (finishWrite st f ls env ic oi rot).2.outcome ≠ StepOutcome.panicked := by
  unfold finishWrite
  split
  · simp
  · split <;> simp

/-- The write phase ends in `wrote`, or in a drop that is caused by (and
reported for) the corresponding write failure. -/
theorem finishWrite_outcome_cases (st : WorkerState) (f : OpenLogFileSt) (ls : Nat)
    (env : StepEnv) (ic : Option Nat) (oi : Option Nat) (rot : Option (Nat × Nat)) :
    (finishWrite st f ls env ic oi rot).2.outcome = StepOutcome.wrote ∨
    ((finishWrite st f ls env ic oi rot).2.outcome = StepOutcome.droppedWriteFail ∧
      env.writeOk = false) ∨
    ((finishWrite st f ls env ic oi rot).2.outcome = StepOutcome.droppedNewlineFail ∧
      env.writeNewlineOk = false) := by
  unfold finishWrite
  by_cases hw : env.writeOk = false
  · simp [hw]
  · by_cases hn : env.writeNewlineOk = false
    · simp [hw, hn]
    · simp [hw, hn]

/-- When the rotation open succeeds, the size-check-plus-write phase never
panics. -/
theorem writePhase_ne_panicked_of_rotOk (cfg : RotationConfig) (st : WorkerState)
    (f : OpenLogFileSt) (ls : Nat) (env : StepEnv) (ic : Option Nat) (oi : Option Nat)
    (hro : env.rotateOpenOk = true) :
    (writePhase cfg st f ls env ic oi).2.outcome ≠ StepOutcome.panicked := by
  unfold writePhase
  rw [hro]
  simp only [if_true]
  split
  · exact finishWrite_outcome_ne_panicked _ _ _ _ _ _ _
  · exact finishWrite_outcome_ne_panicked _ _ _ _ _ _ _

/-- Outcome case analysis for the size-check-plus-write phase. -/
theorem writePhase_outcome_cases (cfg : RotationConfig) (st : WorkerState)
    (f : OpenLogFileSt) (ls : Nat) (env : StepEnv) (ic : Option Nat) (oi : Option Nat) :
    (writePhase cfg st f ls env ic oi).2.outcome = StepOutcome.panicked ∨
    (writePhase cfg st f ls env ic oi).2.outcome = StepOutcome.wrote ∨
    ((writePhase cfg st f ls env ic oi).2.outcome = StepOutcome.droppedWriteFail ∧
      env.writeOk = false) ∨
    ((writePhase cfg st f ls env ic oi).2.outcome = StepOutcome.droppedNewlineFail ∧
      env.writeNewlineOk = false) := by
  unfold writePhase
  split
  · split
    · rcases finishWrite_outcome_cases ⟨some ⟨0, (st.fileIndex + 1) % 100⟩,
        (st.fileIndex + 1) % 100⟩ ⟨0, (st.fileIndex + 1) % 100⟩ ls env ic oi
        (some (f.currentSize, (st.fileIndex + 1) % 100)) with h | h | h
      · exact Or.inr (Or.inl h)
      · exact Or.inr (Or.inr (Or.inl h))
      · exact Or.inr (Or.inr (Or.inr h))
    · exact Or.inl rfl
  · rcases finishWrite_outcome_cases ⟨some f, st.fileIndex⟩ f ls env ic oi none with h | h | h
    · exact Or.inr (Or.inl h)
    · exact Or.inr (Or.inr (Or.inl h))
    · exact Or.inr (Or.inr (Or.inr h))

/-- Both the loop-local index and the index stored in the open file are
below 100. -/
def boundedState (st : WorkerState) : Prop :=
  st.fileIndex < 100 ∧ ∀ f, st.currentFile = some f → f.fileIndex < 100

/-- The write phase preserves index boundedness. -/
theorem finishWrite_bounded (st : WorkerState) (f : OpenLogFileSt) (ls : Nat)
    (env : StepEnv) (ic : Option Nat) (oi : Option Nat) (rot : Option (Nat × Nat))
    (hst : boundedState st) (hf : f.fileIndex < 100) :
    boundedState (finishWrite st f ls env ic oi rot).1 := by
  unfold finishWrite
  split
  · exact hst
  · split
    · exact hst
    · refine ⟨hst.1, ?_⟩
      intro g hg
      simp only [Option.some.injEq] at hg
      rw [← hg]
      exact hf

/-- The size-check phase preserves index boundedness: a rotation produces
`(file_index + 1) % 100 < 100`. -/
theorem writePhase_bounded (cfg : RotationConfig) (st : WorkerState) (f : OpenLogFileSt)
    (ls : Nat) (env : StepEnv) (ic : Option Nat) (oi : Option Nat)
    (hst : boundedState st) (hf : f.fileIndex < 100) :
    boundedState (writePhase cfg st f ls env ic oi).1 := by
  unfold writePhase
  have hmod : (st.fileIndex + 1) % 100 < 100 := Nat.mod_lt _ (by omega)
  split
  · split
    · exact finishWrite_bounded _ _ _ _ _ _ _
        ⟨hmod, by intro g hg; simp only [Option.some.injEq] at hg; rw [← hg]; exact hmod⟩ hmod
    · refine ⟨hst.1, ?_⟩
      intro g hg
      simp only [Option.some.injEq] at hg
      rw [← hg]
      exact hf
  · exact finishWrite_bounded _ _ _ _ _ _ _
      ⟨hst.1, by intro g hg; simp only [Option.some.injEq] at hg; rw [← hg]; exact hf⟩ hf

/-- The lazy-open phase preserves index boundedness. -/
theorem openAndWrite_bounded (cfg : RotationConfig) (st : WorkerState) (line : String)
    (env : StepEnv) (ic : Option Nat) (hst : boundedState st) :
    boundedState (openAndWrite cfg st line env ic).1 := by
  unfold openAndWrite
  split
  · exact writePhase_bounded _ _ _ _ _ _ _
      ⟨hst.1, by intro g hg; simp only [Option.some.injEq] at hg; rw [← hg]; exact hst.1⟩ hst.1
  · exact hst

/-- One worker iteration preserves index boundedness. -/
theorem workerStep_bounded (cfg : RotationConfig) (st : WorkerState) (line : String)
    (env : StepEnv) (hst : boundedState st) :
    boundedState (workerStep cfg st line env).1 := by
  unfold workerStep
  split
  · exact hst
  · split
    · exact openAndWrite_bounded _ _ _ _ _ ⟨by decide, by intro g hg; simp at hg⟩
    · rename_i f heq _
      exact writePhase_bounded _ _ _ _ _ _ _ hst (hst.2 f heq)
    · exact openAndWrite_bounded _ _ _ _ _ hst

/-- Every reachable worker state has both indices below 100. -/
theorem reachable_bounded (cfg : RotationConfig) (st : WorkerState)
    (h : ReachableW cfg st) : boundedState st := by
  induction h with
  | init => exact ⟨by decide, by intro g hg; simp at hg⟩
  | step st line env _ ih => exact workerStep_bounded cfg st line env ih

/-- The open file the worker's size check will look at, assuming the lazy
open succeeds: the idle-reset reopens at index 0 with the on-disk size,
a missing file opens at the current index, an open file is kept. -/
def fileAtWriteCheck (st : WorkerState) (env : StepEnv) : OpenLogFileSt :=
  match st.currentFile with
  | some f => if env.idleElapsed then ⟨env.existingSize, 0⟩ else f
  | none => ⟨env.existingSize, st.fileIndex⟩

/-- C1: the claimed invariant — every generated log filename parses back
into its creation timestamp — fails on the code: `parse_log_filename`
returns `none` for every filename produced by the worker's
`format!("{}-{}-{:02}.jsonl", timestamp, safe_topic_name, file_index)`
(it cuts the name at the first underscore, keeping only the date, and the
underlying `DateTime::parse_from_str` cannot succeed without an offset in
the format), so the round-trip never yields `Some` of the timestamp. -/
theorem c1_filename_roundtrip_broken (t : LocalTimeFields) (s : String) (i : Nat) :
    parse_log_filename (logFileName t s i) = none :=
  parse_log_filename_eq_none _

/-- C2: on a directory holding program-generated `.jsonl` filenames whose
embedded timestamps are 1h, 23h, 25h and 48h old (now = 2024-06-10
12:00:00), plus an unparsable name, a sweep with `retention_hours = 24`
deletes nothing at all — not the claimed 25h- and 48h-old files — because
`parse_log_filename` rejects every name. -/
theorem c2_retention_sweep_deletes_nothing :
    cleanup_expired_logs 24 (daysFromCivil 2024 6 10 * 86400 + 43200)
      [⟨"2024-06-10_11-00-00-sensors_a-00.jsonl", true⟩,
       ⟨"2024-06-09_13-00-00-sensors_a-00.jsonl", true⟩,
       ⟨"2024-06-09_11-00-00-sensors_a-00.jsonl", true⟩,
       ⟨"2024-06-08_12-00-00-sensors_a-00.jsonl", true⟩,
       ⟨"unparsable-name.jsonl", true⟩] = [] := by
  decide

/-- C4 counterexample: on a payload that fails JSON parsing, the produced
log line is not the claimed
`{"ext":{},"raw":{"message":"json parse failed"}}`. -/
theorem c4_parse_failure_cex :
    mqttNormalize 0 (Except.error ()) ≠
      "\x7b\"ext\":\x7b\x7d,\"raw\":\x7b\"message\":\"json parse failed\"\x7d\x7d" := by
  decide

/-- C4 amended: for every payload whose text fails to parse as JSON, the
produced log line is exactly `{"ext":{},"raw":{"message":"json解析失败"}}`
(the diagnostic message is the Chinese string in the source, meaning
"json parse failed"), independent of the timezone. -/
theorem c4_parse_failure_amended (off : Int) (e : Unit) :
    mqttNormalize off (Except.error e) =
      "\x7b\"ext\":\x7b\x7d,\"raw\":\x7b\"message\":\"json解析失败\"\x7d\x7d" := rfl

/-- C5 counterexample: at `timestamp = 1e11` the code and the claimed
magnitude rule disagree — the code's `ts > 1e11` test is false, so `1e11`
is interpreted as seconds (year 5138), while the claim's "magnitude below
1e11" test is also false, demanding the milliseconds interpretation
(1e8 s, year 1973); the emitted `ext` objects differ. -/
theorem c5_timestamp_interp_cex :
    mqttExtPart 0 (JsonValue.obj [("timestamp", JsonValue.num 100000000000)]) ≠
    specExtPartMagnitude 0 (JsonValue.obj [("timestamp", JsonValue.num 100000000000)]) := by
  have hget : (((JsonValue.obj [("timestamp", JsonValue.num 100000000000)]).get
      ("timestamp")).bind JsonValue.asF64) = some 100000000000 := by decide
  have hdiv : (100000000000 : Rat) / 1000 = 100000000 := by norm_num
  have habs : ¬(|(100000000000 : Rat)| < 100000000000) := by norm_num
  simp only [mqttExtPart, specExtPartMagnitude, mqttInterpretTimestamp, hget]
  rw [if_neg (lt_irrefl (100000000000 : Rat)), if_neg habs, hdiv]
  decide

/-- C5 amended: the normalizer interprets a numeric `timestamp` ts as Unix
seconds when `ts ≤ 1e11` (a signed, non-strict comparison — not a
magnitude test) and as milliseconds divided by 1000 otherwise, formats the
result as a local `YYYY-MM-DD HH:MM:SS` string (empty when the instant is
unrepresentable) and emits `ext = {"timestamp":"<formatted>"}`; when the
field is absent or non-numeric, `ext = {}`. -/
theorem c5_timestamp_interp_amended (off : Int) (v : JsonValue) :
    mqttExtPart off v = specExtPartSigned off v := rfl

/-- C10: when the payload is a JSON object whose numeric `timestamp` field
yields no representable local datetime, the emitted `ext` is
`{"timestamp":""}` — a timestamp key bound to the empty string — and not
the empty object. -/
theorem c10_out_of_range_timestamp (off : Int) (v : JsonValue) (ts : Rat)
    (h1 : (v.get ("timestamp")).bind JsonValue.asF64 = some ts)
    (h2 : localTimestampSingleFormatted off (castF64ToI64 (mqttInterpretTimestamp ts)) = none) :
    mqttExtPart off v = "\x7b\"timestamp\":\"\"\x7d" := by
  unfold mqttExtPart
  rw [h1]
  simp [h2]

/-- C10 witness: the timestamp `1e16` (interpreted as milliseconds, hence
`1e13` seconds, beyond chrono's maximal instant) concretely produces
`ext = {"timestamp":""}`. -/
theorem c10_out_of_range_timestamp_witness :
    ((JsonValue.obj [("timestamp", JsonValue.num 10000000000000000)]).get
        ("timestamp")).bind JsonValue.asF64 = some 10000000000000000 ∧
    localTimestampSingleFormatted 0
      (castF64ToI64 (mqttInterpretTimestamp 10000000000000000)) = none ∧
    mqttExtPart 0 (JsonValue.obj [("timestamp", JsonValue.num 10000000000000000)]) =
      "\x7b\"timestamp\":\"\"\x7d" := by
  have hinterp : mqttInterpretTimestamp 10000000000000000 = 10000000000000 := by
    unfold mqttInterpretTimestamp
    rw [if_pos (by norm_num)]
    norm_num
  refine ⟨by decide, ?_, ?_⟩
  · rw [hinterp]
    decide
  · exact c10_out_of_range_timestamp 0 _ 10000000000000000 (by decide)
      (by rw [hinterp]; decide)

/-- The lazy-open phase panics when the open or the metadata call fails. -/
theorem openAndWrite_panicked_of_openFail (cfg : RotationConfig) (st : WorkerState)
    (line : String) (env : StepEnv) (ic : Option Nat)
    (hoo : (env.openOk && env.metadataOk) = false) :
    (openAndWrite cfg st line env ic).2.outcome = StepOutcome.panicked := by
  unfold openAndWrite
  rw [hoo]
  simp

/-- The size-check phase panics when the rotation is triggered and the
rotation open fails. -/
theorem writePhase_panicked_of_rotFail (cfg : RotationConfig) (st : WorkerState)
    (f : OpenLogFileSt) (ls : Nat) (env : StepEnv) (ic : Option Nat) (oi : Option Nat)
    (htrig : cfg.maxFileSize ≤ f.currentSize + ls) (hro : env.rotateOpenOk = false) :
    (writePhase cfg st f ls env ic oi).2.outcome = StepOutcome.panicked := by
  unfold writePhase
  rw [if_pos htrig, hro]
  simp

/-- The lazy-open phase panics when its freshly opened file immediately
triggers a size rotation whose open fails. -/
theorem openAndWrite_panicked_of_rotFail (cfg : RotationConfig) (st : WorkerState)
    (line : String) (env : StepEnv) (ic : Option Nat)
    (hoo : (env.openOk && env.metadataOk) = true)
    (htrig : cfg.maxFileSize ≤ env.existingSize + (line.utf8ByteSize + 1))
    (hro : env.rotateOpenOk = false) :
    (openAndWrite cfg st line env ic).2.outcome = StepOutcome.panicked := by
  unfold openAndWrite
  rw [hoo]
  simp only [if_true]
  exact writePhase_panicked_of_rotFail _ _ _ _ _ _ _ htrig hro

/-- With the open, metadata and rotation-open calls all succeeding, the
lazy-open phase never panics. -/
theorem openAndWrite_ne_panicked (cfg : RotationConfig) (st : WorkerState)
    (line : String) (env : StepEnv) (ic : Option Nat)
    (hoo : (env.openOk && env.metadataOk) = true) (hro : env.rotateOpenOk = true) :
    (openAndWrite cfg st line env ic).2.outcome ≠ StepOutcome.panicked := by
  unfold openAndWrite
  rw [hoo]
  simp only [if_true]
  exact writePhase_ne_panicked_of_rotOk _ _ _ _ _ _ _ hro

/-- Outcome case analysis for the lazy-open phase. -/
theorem openAndWrite_outcome_cases (cfg : RotationConfig) (st : WorkerState)
    (line : String) (env : StepEnv) (ic : Option Nat) :
    (openAndWrite cfg st line env ic).2.outcome = StepOutcome.panicked ∨
    (openAndWrite cfg st line env ic).2.outcome = StepOutcome.wrote ∨
    ((openAndWrite cfg st line env ic).2.outcome = StepOutcome.droppedWriteFail ∧
      env.writeOk = false) ∨
    ((openAndWrite cfg st line env ic).2.outcome = StepOutcome.droppedNewlineFail ∧
      env.writeNewlineOk = false) := by
  unfold openAndWrite
  split
  · exact writePhase_outcome_cases _ _ _ _ _ _ _
  · exact Or.inl rfl

/-- C3 counterexample: a line dequeued while `create_dir_all` fails is
neither written nor does the worker terminate — the worker reports the
failure, drops the line, and continues with the next one. -/
theorem c3_no_silent_drop_cex :
    ¬((workerStep ⟨100⟩ ⟨some ⟨10, 2⟩, 2⟩ ("hello")
        ⟨false, false, true, true, 0, true, true, true⟩).2.outcome = StepOutcome.wrote ∨
      (workerStep ⟨100⟩ ⟨some ⟨10, 2⟩, 2⟩ ("hello")
        ⟨false, false, true, true, 0, true, true, true⟩).2.outcome = StepOutcome.panicked) := by
  decide

/-- C3 amended: for every dequeued line, the worker writes the line, or
panics, or drops the line while continuing — and a drop happens only on a
reported I/O failure (directory creation, the line write, or the newline
write); there is no silent path that loses a line without a failure. -/
theorem c3_no_silent_drop_amended (cfg : RotationConfig) (st : WorkerState)
    (line : String) (env : StepEnv) :
    (workerStep cfg st line env).2.outcome = StepOutcome.wrote ∨
    (workerStep cfg st line env).2.outcome = StepOutcome.panicked ∨
    ((workerStep cfg st line env).2.outcome = StepOutcome.droppedDirFail ∧
      env.createDirOk = false) ∨
    ((workerStep cfg st line env).2.outcome = StepOutcome.droppedWriteFail ∧
      env.writeOk = false) ∨
    ((workerStep cfg st line env).2.outcome = StepOutcome.droppedNewlineFail ∧
      env.writeNewlineOk = false) := by
  unfold workerStep
  split
  · rename_i hcd
    exact Or.inr (Or.inr (Or.inl ⟨rfl, hcd⟩))
  · split
    · rcases openAndWrite_outcome_cases cfg ⟨none, 0⟩ line env _ with h | h | h | h
      · exact Or.inr (Or.inl h)
      · exact Or.inl h
      · exact Or.inr (Or.inr (Or.inr (Or.inl h)))
      · exact Or.inr (Or.inr (Or.inr (Or.inr h)))
    · rcases writePhase_outcome_cases cfg st _ (line.utf8ByteSize + 1) env none none
        with h | h | h | h
      · exact Or.inr (Or.inl h)
      · exact Or.inl h
      · exact Or.inr (Or.inr (Or.inr (Or.inl h)))
      · exact Or.inr (Or.inr (Or.inr (Or.inr h)))
    · rcases openAndWrite_outcome_cases cfg st line env none with h | h | h | h
      · exact Or.inr (Or.inl h)
      · exact Or.inl h
      · exact Or.inr (Or.inr (Or.inr (Or.inl h)))
      · exact Or.inr (Or.inr (Or.inr (Or.inr h)))

/-- C9: failing to open or create a log file (or to read its metadata at
open) makes the worker panic — on the lazy open, and on the rotation
open when the size check triggers — and these are the only per-line I/O
failures that halt the worker: when the three open-related operations
succeed, the worker never panics, whatever else fails. -/
theorem c9_open_failure_fatal (cfg : RotationConfig) (st : WorkerState) (line : String)
    (env : StepEnv) :
    ((env.createDirOk = true) → (st.currentFile = none ∨ env.idleElapsed = true) →
      (env.openOk = false ∨ env.metadataOk = false) →
      (workerStep cfg st line env).2.outcome = StepOutcome.panicked) ∧
    ((env.createDirOk = true) → (env.openOk = true) → (env.metadataOk = true) →
      (cfg.maxFileSize ≤ (fileAtWriteCheck st env).currentSize + (line.utf8ByteSize + 1)) →
      (env.rotateOpenOk = false) →
      (workerStep cfg st line env).2.outcome = StepOutcome.panicked) ∧
    ((env.openOk = true) → (env.metadataOk = true) → (env.rotateOpenOk = true) →
      (workerStep cfg st line env).2.outcome ≠ StepOutcome.panicked) := by
  refine ⟨?_, ?_, ?_⟩
  · intro hcd hopen hfail
    have hoo : (env.openOk && env.metadataOk) = false := by
      rcases hfail with h | h <;> simp [h]
    unfold workerStep
    rw [if_neg (by simp [hcd])]
    rcases hopen with hcf | hie
    · rw [hcf]
      exact openAndWrite_panicked_of_openFail _ _ _ _ _ hoo
    · cases hcf : st.currentFile with
      | none => exact openAndWrite_panicked_of_openFail _ _ _ _ _ hoo
      | some f =>
        rw [hie]
        exact openAndWrite_panicked_of_openFail _ _ _ _ _ hoo
  · intro hcd ho hm htrig hro
    have hoo : (env.openOk && env.metadataOk) = true := by simp [ho, hm]
    unfold workerStep
    rw [if_neg (by simp [hcd])]
    cases hcf : st.currentFile with
    | none =>
      refine openAndWrite_panicked_of_rotFail _ _ _ _ _ hoo ?_ hro
      simpa [fileAtWriteCheck, hcf] using htrig
    | some f =>
      cases hie : env.idleElapsed with
      | true =>
        refine openAndWrite_panicked_of_rotFail _ _ _ _ _ hoo ?_ hro
        simpa [fileAtWriteCheck, hcf, hie] using htrig
      | false =>
        refine writePhase_panicked_of_rotFail _ _ _ _ _ _ _ ?_ hro
        simpa [fileAtWriteCheck, hcf, hie] using htrig
  · intro ho hm hro
    unfold workerStep
    split
    · simp
    · split
      · exact openAndWrite_ne_panicked _ _ _ _ _ (by simp [ho, hm]) hro
      · exact writePhase_ne_panicked_of_rotOk _ _ _ _ _ _ _ hro
      · exact openAndWrite_ne_panicked _ _ _ _ _ (by simp [ho, hm]) hro

/-- C9 witness: with a successful directory check, no open file, and a
failing open, the worker concretely panics. -/
theorem c9_open_failure_fatal_witness :
    ((⟨true, false, false, true, 0, true, true, true⟩ : StepEnv).createDirOk = true) ∧
    ((⟨none, 0⟩ : WorkerState).currentFile = none ∨
      (⟨true, false, false, true, 0, true, true, true⟩ : StepEnv).idleElapsed = true) ∧
    ((⟨true, false, false, true, 0, true, true, true⟩ : StepEnv).openOk = false ∨
      (⟨true, false, false, true, 0, true, true, true⟩ : StepEnv).metadataOk = false) ∧
    (workerStep ⟨100⟩ ⟨none, 0⟩ ("x")
      ⟨true, false, false, true, 0, true, true, true⟩).2.outcome = StepOutcome.panicked :=
  ⟨rfl, Or.inl rfl, Or.inl rfl,
   (c9_open_failure_fatal ⟨100⟩ ⟨none, 0⟩ ("x")
      ⟨true, false, false, true, 0, true, true, true⟩).1 rfl (Or.inl rfl) (Or.inl rfl)⟩

/-- C6 counterexample: at an open-file state with 101 accounted bytes and
`max_file_size = 10`, the 3-byte line "abc" triggers a rotation whose
closed file holds 101 bytes — not less than
`max_file_size + line_size = 14` — refuting the claimed bound on the
prior file's final size. -/
theorem c6_size_rotation_cex :
    (workerStep ⟨10⟩ ⟨some ⟨101, 1⟩, 1⟩ ("abc") envAllOk).2.sizeRotation = some (101, 2) ∧
    (workerStep ⟨10⟩ ⟨some ⟨101, 1⟩, 1⟩ ("abc") envAllOk).2.wroteTo = some 2 ∧
    ¬((101 : Nat) < (⟨10⟩ : RotationConfig).maxFileSize + (("abc").utf8ByteSize + 1)) := by
  decide

/-- C6 amended: at an open-file state with `bytes_written_since_open = b`
that is not idle-expired, a line with `b + line_size >= max_file_size`
makes the worker flush and close the file, advance the rotation index to
`(file_index + 1) % 100`, reset the byte count to 0 and write the line
into the newly opened file; the closed file receives nothing further, so
its final size is exactly `b`, which is below `max_file_size + line_size`
whenever `b < max_file_size` (the invariant of files grown only by
non-rotating writes). -/
theorem c6_size_rotation_amended (cfg : RotationConfig) (b i fi : Nat) (line : String)
    (env : StepEnv) (hcd : env.createDirOk = true) (hie : env.idleElapsed = false)
    (hro : env.rotateOpenOk = true) (hw : env.writeOk = true) (hn : env.writeNewlineOk = true)
    (htrig : cfg.maxFileSize ≤ b + (line.utf8ByteSize + 1)) :
    (workerStep cfg ⟨some ⟨b, i⟩, fi⟩ line env).2.sizeRotation = some (b, (fi + 1) % 100) ∧
    (workerStep cfg ⟨some ⟨b, i⟩, fi⟩ line env).1.fileIndex = (fi + 1) % 100 ∧
    (workerStep cfg ⟨some ⟨b, i⟩, fi⟩ line env).1.currentFile =
      some ⟨line.utf8ByteSize + 1, (fi + 1) % 100⟩ ∧
    (workerStep cfg ⟨some ⟨b, i⟩, fi⟩ line env).2.wroteTo = some ((fi + 1) % 100) ∧
    (workerStep cfg ⟨some ⟨b, i⟩, fi⟩ line env).2.outcome = StepOutcome.wrote ∧
    (workerStep cfg ⟨some ⟨b, i⟩, fi⟩ line env).2.idleClosedSize = none ∧
    ((b < cfg.maxFileSize) → b < cfg.maxFileSize + (line.utf8ByteSize + 1)) := by
  refine ⟨?_, ?_, ?_, ?_, ?_, ?_, by omega⟩ <;>
    simp [workerStep, writePhase, finishWrite, hcd, hie, hro, hw, hn, htrig]

/-- C6 witness: a concrete size rotation at `b = 7`, `max_file_size = 10`,
line "ab", advancing the index from 3 to 4 with prior final size 7. -/
theorem c6_size_rotation_amended_witness :
    (envAllOk.createDirOk = true) ∧ (envAllOk.idleElapsed = false) ∧
    (envAllOk.rotateOpenOk = true) ∧ (envAllOk.writeOk = true) ∧
    (envAllOk.writeNewlineOk = true) ∧
    ((⟨10⟩ : RotationConfig).maxFileSize ≤ 7 + (("ab").utf8ByteSize + 1)) ∧
    (workerStep ⟨10⟩ ⟨some ⟨7, 3⟩, 3⟩ ("ab") envAllOk).2.sizeRotation =
      some (7, (3 + 1) % 100) :=
  ⟨rfl, rfl, rfl, rfl, rfl, by decide,
   (c6_size_rotation_amended ⟨10⟩ 7 3 3 ("ab") envAllOk rfl rfl rfl rfl rfl (by decide)).1⟩

/-- C7 counterexample: after the idle timeout, a 12-byte line with
`max_file_size = 10` is not written into the newly created index-0 file —
the fresh file's size check immediately triggers a size rotation and the
line lands in the file with index 1. -/
theorem c7_idle_rotation_cex :
    (workerStep ⟨10⟩ ⟨some ⟨5, 7⟩, 7⟩ ("aaaaaaaaaaaa")
      ⟨true, true, true, true, 0, true, true, true⟩).2.idleClosedSize = some 5 ∧
    (workerStep ⟨10⟩ ⟨some ⟨5, 7⟩, 7⟩ ("aaaaaaaaaaaa")
      ⟨true, true, true, true, 0, true, true, true⟩).2.openedIndex = some 0 ∧
    ¬((workerStep ⟨10⟩ ⟨some ⟨5, 7⟩, 7⟩ ("aaaaaaaaaaaa")
      ⟨true, true, true, true, 0, true, true, true⟩).2.wroteTo = some 0) ∧
    (workerStep ⟨10⟩ ⟨some ⟨5, 7⟩, 7⟩ ("aaaaaaaaaaaa")
      ⟨true, true, true, true, 0, true, true, true⟩).2.wroteTo = some 1 := by
  decide

/-- C7 amended: when the idle timeout has elapsed at an open-file state,
the next line makes the worker flush and close the current file and open
a new file with rotation index 0, regardless of the previous index; the
line is written into that index-0 file provided its seeded on-disk size
plus the line size stays below `max_file_size` (otherwise the size
rotation immediately moves the line to index 1). -/
theorem c7_idle_rotation_amended (cfg : RotationConfig) (b i fi : Nat) (line : String)
    (env : StepEnv) (hcd : env.createDirOk = true) (hie : env.idleElapsed = true)
    (ho : env.openOk = true) (hm : env.metadataOk = true)
    (hw : env.writeOk = true) (hn : env.writeNewlineOk = true)
    (hfit : env.existingSize + (line.utf8ByteSize + 1) < cfg.maxFileSize) :
    (workerStep cfg ⟨some ⟨b, i⟩, fi⟩ line env).2.idleClosedSize = some b ∧
    (workerStep cfg ⟨some ⟨b, i⟩, fi⟩ line env).2.openedIndex = some 0 ∧
    (workerStep cfg ⟨some ⟨b, i⟩, fi⟩ line env).2.wroteTo = some 0 ∧
    (workerStep cfg ⟨some ⟨b, i⟩, fi⟩ line env).1.fileIndex = 0 ∧
    (workerStep cfg ⟨some ⟨b, i⟩, fi⟩ line env).1.currentFile =
      some ⟨env.existingSize + (line.utf8ByteSize + 1), 0⟩ ∧
    (workerStep cfg ⟨some ⟨b, i⟩, fi⟩ line env).2.outcome = StepOutcome.wrote := by
  have hnotrig : ¬(cfg.maxFileSize ≤ env.existingSize + (line.utf8ByteSize + 1)) := by omega
  refine ⟨?_, ?_, ?_, ?_, ?_, ?_⟩ <;>
    simp [workerStep, openAndWrite, writePhase, finishWrite, hcd, hie, ho, hm, hw, hn, hnotrig]

/-- C7 witness: a concrete idle rotation from index 7: the file closes
with 50 bytes and the 2-byte line lands in a fresh index-0 file. -/
theorem c7_idle_rotation_amended_witness :
    ((⟨true, true, true, true, 0, true, true, true⟩ : StepEnv).createDirOk = true) ∧
    ((⟨true, true, true, true, 0, true, true, true⟩ : StepEnv).idleElapsed = true) ∧
    ((⟨true, true, true, true, 0, true, true, true⟩ : StepEnv).openOk = true) ∧
    ((⟨true, true, true, true, 0, true, true, true⟩ : StepEnv).metadataOk = true) ∧
    ((⟨true, true, true, true, 0, true, true, true⟩ : StepEnv).writeOk = true) ∧
    ((⟨true, true, true, true, 0, true, true, true⟩ : StepEnv).writeNewlineOk = true) ∧
    ((⟨true, true, true, true, 0, true, true, true⟩ : StepEnv).existingSize +
      (("ab").utf8ByteSize + 1) < (⟨100⟩ : RotationConfig).maxFileSize) ∧
    (workerStep ⟨100⟩ ⟨some ⟨50, 7⟩, 7⟩ ("ab")
      ⟨true, true, true, true, 0, true, true, true⟩).2.wroteTo = some 0 :=
  ⟨rfl, rfl, rfl, rfl, rfl, rfl, by decide,
   (c7_idle_rotation_amended ⟨100⟩ 50 7 7 ("ab")
      ⟨true, true, true, true, 0, true, true, true⟩
      rfl rfl rfl rfl rfl rfl (by decide)).2.2.1⟩

/-- C8: in every reachable worker state both the loop index and the open
file's index lie in `[0, 99]`, every index below 100 zero-pads to exactly
two digit characters in the filename's `NN` field, and a size rotation at
index 99 concretely wraps to index 0 in the same session (no idle reset
involved). -/
theorem c8_rotation_index_invariant (cfg : RotationConfig) (st : WorkerState)
    (h : ReachableW cfg st) :
    st.fileIndex < 100 ∧
    (∀ f, st.currentFile = some f → f.fileIndex < 100) ∧
    (∀ n, n < 100 → (zeroPad 2 n).length = 2 ∧ (zeroPad 2 n).toList.all Char.isDigit = true) ∧
    ((workerStep ⟨10⟩ ⟨some ⟨9, 99⟩, 99⟩ ("abc") envAllOk).1.fileIndex = 0 ∧
     (workerStep ⟨10⟩ ⟨some ⟨9, 99⟩, 99⟩ ("abc") envAllOk).2.sizeRotation = some (9, 0) ∧
     (workerStep ⟨10⟩ ⟨some ⟨9, 99⟩, 99⟩ ("abc") envAllOk).2.idleClosedSize = none) := by
  obtain ⟨h1, h2⟩ := reachable_bounded cfg st h
  exact ⟨h1, h2, by decide, by decide, by decide, by decide⟩

/-- C8 witness: the initial state is reachable and its index is in range. -/
theorem c8_rotation_index_invariant_witness :
    ReachableW ⟨10⟩ ⟨none, 0⟩ ∧ (⟨none, 0⟩ : WorkerState).fileIndex < 100 :=
  ⟨ReachableW.init, (c8_rotation_index_invariant ⟨10⟩ ⟨none, 0⟩ ReachableW.init).1⟩
